import Mathlib

/-!
Verification of `src/modules/lambda-authorizer/lambda_src/authorizer.py`.

The Python handler `lambda_handler(event, context)` validates the
`x-api-key` request header against the `ADMIN_API_KEY` environment
variable and returns `{"isAuthorized": <bool>}`, logging one diagnostic
line per outcome branch.

Embedding choices:
* Python string dicts are association lists `List (String × String)`
  with `dictGet` mirroring `dict.get(k)` (returns `none` when absent).
* The event is a structure with the fields the handler may touch
  (`headers`, `requestContext`) plus `body` and `extra` standing for the
  arbitrary remaining event fields, so that independence claims are
  statable. A missing top-level `"headers"`/`"requestContext"` key is
  `none`, matching `event.get("headers", {})`.
* Python truthiness of an optional string (`if not x`) is `pyFalsy`.
* The handler returns the verdict dict (modelled as an association list
  `List (String × Bool)` so "exactly one field" is statable) together
  with the list of log lines it emits, each tagged with its level.
* `lambda_handlerE` is the same code with every Python dict lookup
  routed through its `Except`-typed version (dict lookups are total in
  Python, so each returns `.ok`); it exhibits the absent exception
  channel.
* `invoke` threads an explicit world (environment plus log sink)
  through a call, to state purity and idempotence.
-/

namespace Authorizer

/-- Logging levels used by the handler. -/
inductive Level where
  | info
  | warning
  | error
deriving DecidableEq, Repr

/-- One emitted log line: a level and a message. -/
structure LogLine where
  level : Level
  msg : String
deriving DecidableEq, Repr

/-- Python `d.get(k)` on a string dict: the value at the first matching
key, or `none` when the key is absent. -/
def dictGet (d : List (String × String)) (k : String) : Option String :=
  (d.find? (fun p => p.fst == k)).map (fun p => p.snd)

/-- Python truthiness test `not x` for an optional string: `None` and
the empty string are falsy, every other string is truthy. -/
def pyFalsy : Option String → Bool
  | none => true
  | some s => s == ""

/-- Rendering an optional string inside an f-string: `None` prints as
`"None"`. -/
def pyShowOpt : Option String → String
  | none => "None"
  | some s => s

/-- The API Gateway v2 authorizer event, as far as the handler can see
it: the header dict and request context (either possibly absent, as in
`event.get("headers", {})`), plus the body and the remaining top-level
fields, which the handler never reads. -/
structure Event where
  headers : Option (List (String × String))
  requestContext : Option (List (String × String))
  body : Option String
  extra : List (String × String)
deriving DecidableEq, Repr

/-- The process environment, a string dict queried via
`os.environ.get`. -/
abbrev Env := List (String × String)

/-- Shallow embedding of `lambda_handler` (authorizer.py lines 23-79).
Returns the verdict dict and, in order, the log lines emitted. The
`context` argument is the opaque Lambda context object. -/
def lambda_handler {α : Type} (env : Env) (event : Event) (context : α) :
    List (String × Bool) × List LogLine :=
  let requestId := dictGet (event.requestContext.getD []) "requestId"
  let invokeLog : LogLine :=
    ⟨Level.info, "Authorizer invoked for request: " ++ pyShowOpt requestId⟩
  let expected_api_key := dictGet env "ADMIN_API_KEY"
  if pyFalsy expected_api_key then
    ([("isAuthorized", false)],
      [invokeLog, ⟨Level.error, "ADMIN_API_KEY environment variable not set"⟩])
  else
    let headers := event.headers.getD []
    let provided_api_key := dictGet headers "x-api-key"
    if pyFalsy provided_api_key then
      ([("isAuthorized", false)],
        [invokeLog, ⟨Level.warning, "No x-api-key header provided"⟩])
    else if provided_api_key == expected_api_key then
      ([("isAuthorized", true)],
        [invokeLog, ⟨Level.info, "API key validated successfully"⟩])
    else
      ([("isAuthorized", false)],
        [invokeLog, ⟨Level.warning, "Invalid API key provided"⟩])

/-- The boolean decision as a function of the two looked-up values only:
the three guards of the handler in source order. -/
def verdictOf (expected provided : Option String) : Bool :=
  if pyFalsy expected then false
  else if pyFalsy provided then false
  else provided == expected

lemma pyFalsy_eq_true_iff (o : Option String) :
    pyFalsy o = true ↔ o = none ∨ o = some "" := by
  cases o with
  | none => simp [pyFalsy]
  | some s => simp [pyFalsy]

lemma pyFalsy_eq_false_iff (o : Option String) :
    pyFalsy o = false ↔ ∃ s, o = some s ∧ s ≠ "" := by
  cases o with
  | none => simp [pyFalsy]
  | some s => simp [pyFalsy]

/-- The verdict component of the handler output is `verdictOf` of the
two dict lookups; in particular it depends on nothing else. -/
lemma lambda_handler_fst {α : Type} (env : Env) (event : Event) (c : α) :
    (lambda_handler env event c).fst =
      [("isAuthorized",
        verdictOf (dictGet env "ADMIN_API_KEY")
          (dictGet (event.headers.getD []) "x-api-key"))] := by
  simp only [lambda_handler, verdictOf]
  split
  · rfl
  · split
    · rfl
    · split <;> simp_all

/-- Python exceptions that dict-style code could in principle raise. -/
inductive PyExn where
  | keyError
  | attributeError
deriving DecidableEq, Repr

/-- `d.get(k)` routed through the exception channel: Python `dict.get`
is total, so it always succeeds. -/
def dictGetE (d : List (String × String)) (k : String) :
    Except PyExn (Option String) :=
  Except.ok (dictGet d k)

/-- The handler with every dict lookup routed through the `Except`
channel, step for step as in authorizer.py: it makes the (absent)
exception path of `lambda_handler` explicit. -/
def lambda_handlerE {α : Type} (env : Env) (event : Event) (context : α) :
    Except PyExn (List (String × Bool) × List LogLine) := do
  let requestId ← dictGetE (event.requestContext.getD []) "requestId"
  let invokeLog : LogLine :=
    ⟨Level.info, "Authorizer invoked for request: " ++ pyShowOpt requestId⟩
  let expected_api_key ← dictGetE env "ADMIN_API_KEY"
  if pyFalsy expected_api_key then
    return ([("isAuthorized", false)],
      [invokeLog, ⟨Level.error, "ADMIN_API_KEY environment variable not set"⟩])
  else
    let headers := event.headers.getD []
    let provided_api_key ← dictGetE headers "x-api-key"
    if pyFalsy provided_api_key then
      return ([("isAuthorized", false)],
        [invokeLog, ⟨Level.warning, "No x-api-key header provided"⟩])
    else if provided_api_key == expected_api_key then
      return ([("isAuthorized", true)],
        [invokeLog, ⟨Level.info, "API key validated successfully"⟩])
    else
      return ([("isAuthorized", false)],
        [invokeLog, ⟨Level.warning, "Invalid API key provided"⟩])

/-- The ambient state a call can observe or change: the process
environment and the log output accumulated so far. -/
structure World where
  env : Env
  logOutput : List LogLine
deriving DecidableEq, Repr

/-- One invocation of the handler against an explicit world: the new
world and the returned verdict. The handler only appends its log lines
to the world. -/
def invoke {α : Type} (w : World) (event : Event) (context : α) :
    World × List (String × Bool) :=
  let r := lambda_handler w.env event context
  (⟨w.env, w.logOutput ++ r.snd⟩, r.fst)

lemma lambda_handlerE_eq_ok {α : Type} (env : Env) (event : Event) (c : α) :
    lambda_handlerE env event c = Except.ok (lambda_handler env event c) := by
  simp only [lambda_handlerE, lambda_handler, dictGetE, bind, Except.bind]
  split
  · rfl
  · split
    · rfl
    · split <;> rfl

/-- Sample request event: both headers present. -/
def evFull : Event :=
  ⟨some [("x-api-key", "secret123"), ("accept", "text/html")],
    some [("requestId", "abc123")], some "hello", [("rawPath", "/admin")]⟩

/-- Sample request event: no `x-api-key` header. -/
def evNoKey : Event :=
  ⟨some [("accept", "text/html")], some [("requestId", "abc123")], none, []⟩

/-- Sample request event: empty `x-api-key` header, empty request
context. -/
def evEmptyKey : Event :=
  ⟨some [("x-api-key", "")], none, none, []⟩

/-- Sample request event: no top-level `"headers"` key at all. -/
def evNoHeaders : Event :=
  ⟨none, none, none, []⟩

/-- Sample environment with the secret configured. -/
def envOk : Env := [("ADMIN_API_KEY", "secret123"), ("PATH", "/usr/bin")]

/-- Sample environment where the secret is set to the empty string. -/
def envEmpty : Env := [("ADMIN_API_KEY", "")]

/-- Sample environment where the secret is unset. -/
def envUnset : Env := [("PATH", "/usr/bin")]

/-- An event agreeing with `evFull` on `x-api-key` but differing in the
other headers, request id, body and remaining fields. -/
def evFullVariant : Event :=
  ⟨some [("accept", "application/json"), ("x-api-key", "secret123")],
    some [("requestId", "zzz999")], none, [("rawPath", "/other")]⟩

lemma verdictOf_eq_true_iff (expected provided : Option String) :
    verdictOf expected provided = true ↔
      ∃ s : String, s ≠ "" ∧ expected = some s ∧ provided = some s := by
  unfold verdictOf
  cases expected with
  | none => simp [pyFalsy]
  | some e =>
    cases provided with
    | none => simp [pyFalsy]
    | some p =>
      by_cases he : e = ""
      · subst he
        simp only [pyFalsy, beq_self_eq_true, if_true, Bool.false_eq_true,
          false_iff, not_exists]
        intro s
        rintro ⟨hne, hq, -⟩
        exact hne (Option.some.inj hq).symm
      · by_cases hp : p = ""
        · subst hp
          simp [pyFalsy, he]
        · simp only [pyFalsy, beq_iff_eq, he, hp, if_false, Option.some.injEq]
          constructor
          · intro hpe
            exact ⟨e, he, rfl, hpe⟩
          · rintro ⟨s, _, rfl, rfl⟩
            rfl

/-- C1: for every event and environment, `lambda_handler` answers
`isAuthorized = true` exactly when the `ADMIN_API_KEY` environment value
is present and non-empty, the `x-api-key` header is present, and the two
strings are equal (ordinal, case-sensitive, no trimming); in every other
case the verdict is `false`. -/
theorem c1_authorized_iff_key_match {α : Type} (env : Env) (event : Event)
    (c : α) :
    (lambda_handler env event c).fst = [("isAuthorized", true)] ↔
      ∃ s : String, s ≠ "" ∧ dictGet env "ADMIN_API_KEY" = some s ∧
        dictGet (event.headers.getD []) "x-api-key" = some s := by
  rw [lambda_handler_fst]
  rw [show ∀ b : Bool, ([(("isAuthorized" : String), b)] =
      [(("isAuthorized" : String), true)]) ↔ b = true by intro b; simp]
  exact verdictOf_eq_true_iff _ _

/-- C2: `lambda_handler`, with every Python dict lookup routed through
the explicit exception channel, never raises: on every event,
environment and context it returns `Except.ok` carrying a well-formed
verdict object. -/
theorem c2_never_raises {α : Type} (env : Env) (event : Event) (c : α) :
    ∃ (b : Bool) (logs : List LogLine),
      lambda_handlerE env event c = Except.ok ([("isAuthorized", b)], logs) := by
  refine ⟨verdictOf (dictGet env "ADMIN_API_KEY")
      (dictGet (event.headers.getD []) "x-api-key"),
    (lambda_handler env event c).snd, ?_⟩
  rw [lambda_handlerE_eq_ok, ← lambda_handler_fst env event c]

/-- C3: whenever `ADMIN_API_KEY` is unset or empty, the verdict is
`false` for every request, and an error-level log line is emitted. -/
theorem c3_missing_config {α : Type} (env : Env) (event : Event) (c : α)
    (h : dictGet env "ADMIN_API_KEY" = none ∨
        dictGet env "ADMIN_API_KEY" = some "") :
    (lambda_handler env event c).fst = [("isAuthorized", false)] ∧
      ∃ l ∈ (lambda_handler env event c).snd, l.level = Level.error := by
  have hf : pyFalsy (dictGet env "ADMIN_API_KEY") = true :=
    (pyFalsy_eq_true_iff _).mpr h
  refine ⟨?_, ⟨Level.error, "ADMIN_API_KEY environment variable not set"⟩,
    ?_, rfl⟩
  · simp [lambda_handler, hf]
  · simp [lambda_handler, hf]

/-- C3 witness: with `ADMIN_API_KEY` unset and a fully populated
request, the verdict is `false` and an error-level line is logged. -/
theorem c3_missing_config_witness :
    (dictGet envUnset "ADMIN_API_KEY" = none ∨
        dictGet envUnset "ADMIN_API_KEY" = some "") ∧
      ((lambda_handler envUnset evFull ()).fst = [("isAuthorized", false)] ∧
        ∃ l ∈ (lambda_handler envUnset evFull ()).snd,
          l.level = Level.error) :=
  ⟨Or.inl rfl, c3_missing_config envUnset evFull () (Or.inl rfl)⟩

/-- C4: with a non-empty configured secret, whenever the request lacks
the `x-api-key` header or maps it to the empty string, the verdict is
`false` and a warning-level log line is emitted. -/
theorem c4_missing_credential {α : Type} (env : Env) (event : Event)
    (c : α) (s : String) (hs : dictGet env "ADMIN_API_KEY" = some s)
    (hne : s ≠ "")
    (hh : dictGet (event.headers.getD []) "x-api-key" = none ∨
        dictGet (event.headers.getD []) "x-api-key" = some "") :
    (lambda_handler env event c).fst = [("isAuthorized", false)] ∧
      ∃ l ∈ (lambda_handler env event c).snd, l.level = Level.warning := by
  have hf : pyFalsy (dictGet env "ADMIN_API_KEY") = false := by
    rw [hs]
    simpa [pyFalsy] using hne
  have hp : pyFalsy (dictGet (event.headers.getD []) "x-api-key") = true :=
    (pyFalsy_eq_true_iff _).mpr hh
  refine ⟨?_, ⟨Level.warning, "No x-api-key header provided"⟩, ?_, rfl⟩
  · simp [lambda_handler, hf, hp]
  · simp [lambda_handler, hf, hp]

/-- C4 witness: with the secret configured and no `x-api-key` header,
the verdict is `false` and a warning-level line is logged. -/
theorem c4_missing_credential_witness :
    (dictGet envOk "ADMIN_API_KEY" = some "secret123") ∧
      ("secret123" : String) ≠ "" ∧
      (dictGet (evNoKey.headers.getD []) "x-api-key" = none ∨
        dictGet (evNoKey.headers.getD []) "x-api-key" = some "") ∧
      ((lambda_handler envOk evNoKey ()).fst = [("isAuthorized", false)] ∧
        ∃ l ∈ (lambda_handler envOk evNoKey ()).snd,
          l.level = Level.warning) :=
  ⟨rfl, by decide, Or.inl rfl,
    c4_missing_credential envOk evNoKey () "secret123" rfl (by decide)
      (Or.inl rfl)⟩

/-- C5: on every input the returned object is exactly the mapping with
the single key `isAuthorized` bound to `true`, or exactly the mapping
with the single key `isAuthorized` bound to `false`. -/
theorem c5_verdict_shape {α : Type} (env : Env) (event : Event) (c : α) :
    (lambda_handler env event c).fst = [("isAuthorized", true)] ∨
      (lambda_handler env event c).fst = [("isAuthorized", false)] := by
  cases hv : verdictOf (dictGet env "ADMIN_API_KEY")
      (dictGet (event.headers.getD []) "x-api-key")
  · right
    rw [lambda_handler_fst, hv]
  · left
    rw [lambda_handler_fst, hv]

/-- C6: when `ADMIN_API_KEY` is unset or empty, the handler takes the
missing-configuration branch: its entire output is independent of the
request headers, and the emitted diagnostics are exactly the invocation
line followed by the error-level configuration line — never the header
warning, even when the header is also empty. -/
theorem c6_config_check_first {α : Type} (env : Env) (event : Event)
    (c : α)
    (h : dictGet env "ADMIN_API_KEY" = none ∨
        dictGet env "ADMIN_API_KEY" = some "") :
    (∀ h1 h2 : Option (List (String × String)),
        lambda_handler env { event with headers := h1 } c =
          lambda_handler env { event with headers := h2 } c) ∧
      lambda_handler env event c =
        ([("isAuthorized", false)],
          [⟨Level.info, "Authorizer invoked for request: " ++
              pyShowOpt (dictGet (event.requestContext.getD []) "requestId")⟩,
            ⟨Level.error, "ADMIN_API_KEY environment variable not set"⟩]) := by
  have hf : pyFalsy (dictGet env "ADMIN_API_KEY") = true :=
    (pyFalsy_eq_true_iff _).mpr h
  constructor
  · intro h1 h2
    simp [lambda_handler, hf]
  · simp [lambda_handler, hf]

/-- C6 witness: with the secret set to the empty string and an event
whose `x-api-key` header is also empty, the handler still takes the
missing-configuration branch and logs the error line, not the header
warning. -/
theorem c6_config_check_first_witness :
    (dictGet envEmpty "ADMIN_API_KEY" = none ∨
        dictGet envEmpty "ADMIN_API_KEY" = some "") ∧
      lambda_handler envEmpty evEmptyKey () =
        ([("isAuthorized", false)],
          [⟨Level.info, "Authorizer invoked for request: " ++
              pyShowOpt (dictGet (evEmptyKey.requestContext.getD [])
                "requestId")⟩,
            ⟨Level.error, "ADMIN_API_KEY environment variable not set"⟩]) :=
  ⟨Or.inr rfl,
    (c6_config_check_first envEmpty evEmptyKey () (Or.inr rfl)).2⟩

/-- C7: the handler is a deterministic pure function of environment and
event: an invocation leaves the environment unchanged and only appends
its log lines, and a second invocation on identical inputs returns the
identical verdict. -/
theorem c7_pure_idempotent {α : Type} (w : World) (event : Event) (c : α) :
    (invoke w event c).fst.env = w.env ∧
      (invoke w event c).fst.logOutput =
        w.logOutput ++ (lambda_handler w.env event c).snd ∧
      (invoke (invoke w event c).fst event c).snd = (invoke w event c).snd ∧
      (invoke (invoke w event c).fst event c).fst.env = w.env :=
  ⟨rfl, rfl, rfl, rfl⟩

/-- C8: any two events that agree on the looked-up `x-api-key` header
value (including both lacking it) receive the same verdict under the
same environment, whatever their other headers, bodies, request ids or
remaining fields. -/
theorem c8_ignored_field_independence {α : Type} (env : Env)
    (e1 e2 : Event) (c : α)
    (h : dictGet (e1.headers.getD []) "x-api-key" =
        dictGet (e2.headers.getD []) "x-api-key") :
    (lambda_handler env e1 c).fst = (lambda_handler env e2 c).fst := by
  rw [lambda_handler_fst, lambda_handler_fst, h]

/-- C8 witness: two events with the same `x-api-key` but different
other headers, request ids, bodies and extra fields get the same
verdict. -/
theorem c8_ignored_field_independence_witness :
    (dictGet (evFull.headers.getD []) "x-api-key" =
        dictGet (evFullVariant.headers.getD []) "x-api-key") ∧
      (lambda_handler envOk evFull ()).fst =
        (lambda_handler envOk evFullVariant ()).fst :=
  ⟨rfl, c8_ignored_field_independence envOk evFull evFullVariant () rfl⟩

/-- C9: the verdict is independent of the second (Lambda context)
parameter: the handler returns the same output for any two context
values, of any types — the context is never read. -/
theorem c9_context_independent {α β : Type} (env : Env) (event : Event)
    (c1 : α) (c2 : β) :
    lambda_handler env event c1 = lambda_handler env event c2 := rfl

/-- C10: an event with no top-level `headers` key is handled as an
empty header mapping — with a non-empty configured secret the verdict
is `false` — and the `requestContext` field never influences the
verdict. -/
theorem c10_missing_top_level_keys {α : Type} (env : Env)
    (rc : Option (List (String × String))) (b : Option String)
    (extra : List (String × String)) (c : α) (s : String)
    (hs : dictGet env "ADMIN_API_KEY" = some s) (hne : s ≠ "") :
    (lambda_handler env ⟨none, rc, b, extra⟩ c).fst =
        [("isAuthorized", false)] ∧
      ∀ (e : Event) (rc1 rc2 : Option (List (String × String))),
        (lambda_handler env { e with requestContext := rc1 } c).fst =
          (lambda_handler env { e with requestContext := rc2 } c).fst := by
  constructor
  · rw [lambda_handler_fst]
    simp [verdictOf, dictGet, pyFalsy]
  · intro e rc1 rc2
    rw [lambda_handler_fst, lambda_handler_fst]

/-- C10 witness: with the secret configured, an event lacking both the
`headers` and `requestContext` keys yields the verdict `false`. -/
theorem c10_missing_top_level_keys_witness :
    (dictGet envOk "ADMIN_API_KEY" = some "secret123") ∧
      ("secret123" : String) ≠ "" ∧
      (lambda_handler envOk evNoHeaders ()).fst =
        [("isAuthorized", false)] :=
  ⟨rfl, by decide,
    (c10_missing_top_level_keys envOk none none [] () "secret123" rfl
        (by decide)).1⟩

end Authorizer
